import Mathlib

/-!
Verification development for the stl2thumbnail thumbnail-rendering pipeline.

The visible repository files are the C-compatible boundary
(include/stl2thumbnail.h: PictureBuffer, RenderSettings, render,
free_picture_buffer), example callers, and the KDE plugin shim
(desktop_integration/kde/thumbcreator.cpp).  The rendering core itself is not
among the given files, so it is modelled here from the specification
(STL parsing, scene normalization, rasterization, annotation, buffer export,
and the execution guard); every such definition carries a doc comment
starting with the words Modelled from the spec.  The KDE shim, which is in
the sources, is embedded directly from thumbcreator.cpp.

Numeric values are exact fractions of integers (the type Q below); machine
floating point is replaced by exact rational arithmetic, and IEEE-754
binary32 bit patterns from STL files are decoded to their exact rational
values (NaN and infinity patterns are rejected as unusable, matching the
spec rule that numerical instability only ever skips a triangle).
-/

set_option maxRecDepth 100000

set_option maxHeartbeats 2000000

namespace S2T

/-! ## Exact fraction arithmetic -/

/-- Exact fraction of two integers. Every constructor used by the pipeline
keeps the denominator positive; `mkQ` normalizes by the gcd. -/
structure Q where
  n : Int
  d : Int
  deriving DecidableEq

/-- Normalizing constructor for `Q`: forces a positive denominator and
divides out the gcd; a zero denominator is collapsed to `0/1`. -/
def mkQ (n d : Int) : Q :=
  if d = 0 then Q.mk 0 1
  else
    let g : Int := Int.ofNat (Nat.gcd n.natAbs d.natAbs)
    if d > 0 then Q.mk (n / g) (d / g) else Q.mk (-n / g) (-d / g)

def qadd (a b : Q) : Q := mkQ (a.n * b.d + b.n * a.d) (a.d * b.d)

def qsub (a b : Q) : Q := mkQ (a.n * b.d - b.n * a.d) (a.d * b.d)

def qmul (a b : Q) : Q := mkQ (a.n * b.n) (a.d * b.d)

/-- Division of fractions; division by zero yields `0/1` (total function). -/
def qdiv (a b : Q) : Q := mkQ (a.n * b.d) (a.d * b.n)

def qneg (a : Q) : Q := Q.mk (-a.n) a.d

/-- Value comparison (valid because denominators are kept positive). -/
def qleB (a b : Q) : Bool := decide (a.n * b.d ≤ b.n * a.d)

def qltB (a b : Q) : Bool := decide (a.n * b.d < b.n * a.d)

/-- Value equality of fractions (not structural equality). -/
def qeqB (a b : Q) : Bool := decide (a.n * b.d = b.n * a.d)

def qOfNat (k : Nat) : Q := Q.mk (Int.ofNat k) 1

def qmin (a b : Q) : Q := if qleB a b then a else b

def qmax (a b : Q) : Q := if qleB a b then b else a

def qhalf (a : Q) : Q := mkQ a.n (a.d * 2)

/-- Floor of a fraction as an integer (denominator is positive). -/
def qfloor (a : Q) : Int := Int.fdiv a.n a.d

/-! ## Data model of the external interface (from include/stl2thumbnail.h) -/

/-- Pixel buffer descriptor crossing the C boundary, from
include/stl2thumbnail.h.  The `data` pointer is modelled as an optional list
of byte values: `none` is the null failure sentinel, `some bytes` a valid
allocation holding the RGBA8888 pixel data. -/
structure PictureBuffer where
  data : Option (List Nat)
  len : Nat
  stride : Nat
  depth : Nat
  deriving DecidableEq

/-- Render settings struct from include/stl2thumbnail.h: target width and
height in pixels, the size-hint flag and the timeout (0 disables the
execution guard). -/
structure RenderSettings where
  width : Nat
  height : Nat
  size_hint : Bool
  timeout : Nat
  deriving DecidableEq

/-- The null-data failure sentinel returned across the boundary on any
pipeline failure; no other field is meaningful in that case. -/
def nullPicture : PictureBuffer := PictureBuffer.mk none 0 0 0

/-! ## Error taxonomy (spec section 7) -/

/-- Modelled from the spec: parse-level failure taxonomy of the Mesh Loader
and Scene Normalizer. -/
inductive ParseError where
  | truncated
  | malformed
  | empty
  | degenerate
  deriving DecidableEq

/-- Modelled from the spec: top-level error taxonomy; every one of these is
collapsed to the null-buffer sentinel before crossing the boundary. -/
inductive RenderError where
  | ioError
  | parse (e : ParseError)
  | timedOut
  | internalError
  deriving DecidableEq

/-! ## Geometry -/

/-- Modelled from the spec: a 3D vector with exact rational components. -/
structure Vec3 where
  x : Q
  y : Q
  z : Q
  deriving DecidableEq

/-- Modelled from the spec: one mesh triangle: a normal, three vertices, and
the degenerate flag set by the Mesh Loader (zero-area or unusable numeric
data); flagged triangles are retained but skipped by the Rasterizer. -/
structure Tri where
  nrm : Vec3
  a : Vec3
  b : Vec3
  c : Vec3
  flag : Bool
  deriving DecidableEq

/-- Zero-area (collinear vertices) test: the cross product of the two edge
vectors vanishes in all three components. -/
def zeroAreaB (a b c : Vec3) : Bool :=
  let ux := qsub b.x a.x
  let uy := qsub b.y a.y
  let uz := qsub b.z a.z
  let vx := qsub c.x a.x
  let vy := qsub c.y a.y
  let vz := qsub c.z a.z
  qeqB (qsub (qmul uy vz) (qmul uz vy)) (qOfNat 0) &&
  qeqB (qsub (qmul uz vx) (qmul ux vz)) (qOfNat 0) &&
  qeqB (qsub (qmul ux vy) (qmul uy vx)) (qOfNat 0)

/-- Build a triangle, flagging it degenerate when its vertices are
collinear (spec: degenerate triangles are retained but flagged). -/
def mkTri (n a b c : Vec3) : Tri := Tri.mk n a b c (zeroAreaB a b c)

/-! ## Mesh Loader: binary STL (spec section 4.1) -/

/-- Modelled from the spec: exact value of an IEEE-754 binary32 number given
its four little-endian bytes; NaN and infinity patterns give `none`. -/
def decodeF32 (b0 b1 b2 b3 : Nat) : Option Q :=
  let bits := b0 + 256 * b1 + 65536 * b2 + 16777216 * b3
  let sgn := bits / 2147483648
  let e := (bits / 8388608) % 256
  let m := bits % 8388608
  if e = 255 then none
  else
    let mag : Q :=
      if e = 0 then mkQ (Int.ofNat m) (Int.ofNat (2 ^ 149))
      else if 150 ≤ e then Q.mk (Int.ofNat ((8388608 + m) * 2 ^ (e - 150))) 1
      else mkQ (Int.ofNat (8388608 + m)) (Int.ofNat (2 ^ (150 - e)))
    some (if sgn = 1 then qneg mag else mag)

/-- Bounds-checked slice of `n` bytes at offset `off`; `none` when the
requested range is not fully inside the file, so no read is ever out of
bounds and no byte value is ever fabricated. -/
def slice? (bytes : List Nat) (off n : Nat) : Option (List Nat) :=
  if off + n ≤ bytes.length then some ((bytes.drop off).take n) else none

/-- Decode 4 little-endian bytes at offset `i` of a record. -/
def qAt (r : List Nat) (i : Nat) : Option Q :=
  decodeF32 (r.getD i 0) (r.getD (i + 1) 0) (r.getD (i + 2) 0) (r.getD (i + 3) 0)

/-- Decode a 12-byte vector at offset `i` of a record. -/
def vecAt (r : List Nat) (i : Nat) : Option Vec3 :=
  match qAt r i, qAt r (i + 4), qAt r (i + 8) with
  | some x, some y, some z => some (Vec3.mk x y z)
  | _, _, _ => none

/-- Modelled from the spec: decode one 50-byte binary STL triangle record
(normal, three vertices, 2-byte attribute).  A record whose floats are not
usable numbers (NaN or infinity) is retained as a flagged triangle so the
Rasterizer skips it without failing the load. -/
def decodeTri (r : List Nat) : Tri :=
  match vecAt r 0, vecAt r 12, vecAt r 24, vecAt r 36 with
  | some n, some a, some b, some c => mkTri n a b c
  | _, _, _, _ =>
    Tri.mk (Vec3.mk (qOfNat 0) (qOfNat 0) (qOfNat 0))
      (Vec3.mk (qOfNat 0) (qOfNat 0) (qOfNat 0))
      (Vec3.mk (qOfNat 0) (qOfNat 0) (qOfNat 0))
      (Vec3.mk (qOfNat 0) (qOfNat 0) (qOfNat 0)) true

/-- Modelled from the spec: parse `k` fixed-size triangle records starting
at byte offset `off`; every byte access goes through the bounds-checked
`slice?` and a missing byte surfaces as `ParseError.truncated`. -/
def parseRecs (bytes : List Nat) : Nat → Nat → Except ParseError (List Tri)
  | _, 0 => .ok []
  | off, Nat.succ k =>
    match slice? bytes off 50 with
    | none => .error .truncated
    | some r =>
      match parseRecs bytes (off + 50) k with
      | .error e => .error e
      | .ok ts => .ok (decodeTri r :: ts)

/-- Declared little-endian triangle count of a binary STL file (bytes 80 to
83, right after the 80-byte header). -/
def declCount (bytes : List Nat) : Nat :=
  bytes.getD 80 0 + 256 * bytes.getD 81 0 + 65536 * bytes.getD 82 0 +
    16777216 * bytes.getD 83 0

/-- Modelled from the spec: binary STL parser: an 80-byte header, a 4-byte
little-endian triangle count, then fixed 50-byte records.  The declared
count is validated against the remaining file length before any record is
read; an inconsistent (truncated) file fails with `ParseError.truncated`. -/
def parseBinary (bytes : List Nat) : Except ParseError (List Tri) :=
  if bytes.length < 84 then .error .truncated
  else if bytes.length < 84 + 50 * declCount bytes then .error .truncated
  else parseRecs bytes 84 (declCount bytes)

/-! ## Mesh Loader: ASCII STL (spec section 4.1) -/

def isSpaceB (b : Nat) : Bool := b == 32 || b == 9 || b == 10 || b == 13

def isDigitB (b : Nat) : Bool := decide (48 ≤ b) && decide (b ≤ 57)

/-- Split a byte list into whitespace-delimited tokens (the accumulator
holds the current token reversed). -/
def tokenizeAux : List Nat → List Nat → List (List Nat)
  | [], cur => if cur.isEmpty then [] else [cur.reverse]
  | b :: rest, cur =>
    if isSpaceB b then
      if cur.isEmpty then tokenizeAux rest []
      else cur.reverse :: tokenizeAux rest []
    else tokenizeAux rest (b :: cur)

/-- Modelled from the spec: ASCII STL tolerates arbitrary whitespace and
newline layout, so the file is read as a flat token stream. -/
def tokensOf (bytes : List Nat) : List (List Nat) := tokenizeAux bytes []

def digitsVal (ds : List Nat) : Nat := ds.foldl (fun acc d => acc * 10 + (d - 48)) 0

/-- Apply an optional decimal exponent suffix to a mantissa. -/
def expApply (mant : Q) (r : List Nat) : Option Q :=
  let p := match r with
    | 45 :: rr => (true, rr)
    | 43 :: rr => (false, rr)
    | _ => (false, r)
  let ed := p.2.takeWhile isDigitB
  let r2 := p.2.dropWhile isDigitB
  if ed.isEmpty || !r2.isEmpty then none
  else
    let t := qOfNat (10 ^ digitsVal ed)
    some (if p.1 then qdiv mant t else qmul mant t)

/-- Modelled from the spec: whitespace-delimited numeric text of an ASCII
STL; sign, integer part, optional fraction, optional decimal exponent.
A malformed token gives `none`, which the facet parser turns into
`ParseError.malformed`. -/
def parseNum (tok : List Nat) : Option Q :=
  let s := match tok with
    | 45 :: r => (true, r)
    | 43 :: r => (false, r)
    | _ => (false, tok)
  let ip := s.2.takeWhile isDigitB
  let t2 := s.2.dropWhile isDigitB
  let f := match t2 with
    | 46 :: r => (r.takeWhile isDigitB, r.dropWhile isDigitB)
    | _ => ([], t2)
  if ip.isEmpty && f.1.isEmpty then none
  else
    let mant := qadd (qOfNat (digitsVal ip))
      (qdiv (qOfNat (digitsVal f.1)) (qOfNat (10 ^ f.1.length)))
    let mant := if s.1 then qneg mant else mant
    match f.2 with
    | [] => some mant
    | 101 :: r => expApply mant r
    | 69 :: r => expApply mant r
    | _ => none

def solidT : List Nat := [115, 111, 108, 105, 100]
def facetT : List Nat := [102, 97, 99, 101, 116]
def normalT : List Nat := [110, 111, 114, 109, 97, 108]
def outerT : List Nat := [111, 117, 116, 101, 114]
def loopT : List Nat := [108, 111, 111, 112]
def vertexT : List Nat := [118, 101, 114, 116, 101, 120]
def endloopT : List Nat := [101, 110, 100, 108, 111, 111, 112]
def endfacetT : List Nat := [101, 110, 100, 102, 97, 99, 101, 116]
def endsolidT : List Nat := [101, 110, 100, 115, 111, 108, 105, 100]

/-- Consume one expected keyword token. -/
def expectK (k : List Nat) (toks : List (List Nat)) : Option (List (List Nat)) :=
  match toks with
  | t :: rest => if t = k then some rest else none
  | [] => none

/-- Parse three numeric tokens into a vector. -/
def parse3 (toks : List (List Nat)) : Option (Vec3 × List (List Nat)) :=
  match toks with
  | t1 :: t2 :: t3 :: rest =>
    match parseNum t1, parseNum t2, parseNum t3 with
    | some x, some y, some z => some (Vec3.mk x y z, rest)
    | _, _, _ => none
  | _ => none

/-- Parse the body of one facet (the leading `facet` keyword has already
been consumed): normal, outer loop with three vertices, end markers. -/
def parseFacet (toks : List (List Nat)) : Option (Tri × List (List Nat)) :=
  match expectK normalT toks with
  | none => none
  | some r1 =>
    match parse3 r1 with
    | none => none
    | some (n, r2) =>
      match expectK outerT r2 with
      | none => none
      | some r3 =>
        match expectK loopT r3 with
        | none => none
        | some r4 =>
          match expectK vertexT r4 with
          | none => none
          | some r5 =>
            match parse3 r5 with
            | none => none
            | some (va, r6) =>
              match expectK vertexT r6 with
              | none => none
              | some r7 =>
                match parse3 r7 with
                | none => none
                | some (vb, r8) =>
                  match expectK vertexT r8 with
                  | none => none
                  | some r9 =>
                    match parse3 r9 with
                    | none => none
                    | some (vc, r10) =>
                      match expectK endloopT r10 with
                      | none => none
                      | some r11 =>
                        match expectK endfacetT r11 with
                        | none => none
                        | some r12 => some (mkTri n va vb vc, r12)

/-- Modelled from the spec: facet list of an ASCII STL; ends at `endsolid`.
The fuel argument (token count) makes the recursion structural. -/
def parseFacets : Nat → List (List Nat) → Except ParseError (List Tri)
  | 0, _ => .error .malformed
  | Nat.succ k, toks =>
    match toks with
    | [] => .error .malformed
    | t :: rest =>
      if t = endsolidT then .ok []
      else if t = facetT then
        match parseFacet rest with
        | none => .error .malformed
        | some (tri, rest2) =>
          match parseFacets k rest2 with
          | .error e => .error e
          | .ok ts => .ok (tri :: ts)
      else .error .malformed

/-- Modelled from the spec: ASCII STL parser: the `solid` keyword, an
optional name (skipped up to the first `facet` or `endsolid`), then
facets. -/
def parseAscii (bytes : List Nat) : Except ParseError (List Tri) :=
  match tokensOf bytes with
  | [] => .error .malformed
  | t :: rest =>
    if t = solidT then
      let body := rest.dropWhile fun tk =>
        !(decide (tk = facetT) || decide (tk = endsolidT))
      parseFacets (body.length + 1) body
    else .error .malformed

/-- Modelled from the spec: format detection by inspecting the header: a
file starting with the literal keyword marking a solid is parsed as ASCII,
anything else as binary. -/
def detectAscii (bytes : List Nat) : Bool := decide (bytes.take 5 = solidT)

/-- Modelled from the spec: format dispatch of the Mesh Loader: two parse
functions behind a single dispatch, both converging on the same mesh type. -/
def parseStl (bytes : List Nat) : Except ParseError (List Tri) :=
  if detectAscii bytes then parseAscii bytes else parseBinary bytes

/-- Modelled from the spec: the Mesh Loader contract: parse the file and
fail with `ParseError.empty` when the mesh has zero triangles. -/
def loadMesh (bytes : List Nat) : Except RenderError (List Tri) :=
  match parseStl bytes with
  | .error e => .error (.parse e)
  | .ok [] => .error (.parse .empty)
  | .ok ts => .ok ts

/-! ## Scene Normalizer (spec section 4.2) -/

/-- Axis-aligned 3D bounding box. -/
structure BBox3 where
  x0 : Q
  x1 : Q
  y0 : Q
  y1 : Q
  z0 : Q
  z1 : Q
  deriving DecidableEq

/-- Axis-aligned 2D bounding box of the projected mesh. -/
structure BBox2 where
  u0 : Q
  u1 : Q
  v0 : Q
  v1 : Q
  deriving DecidableEq

/-- All vertices of the mesh, in order. -/
def meshVerts (ts : List Tri) : List Vec3 :=
  ts.foldr (fun t acc => t.a :: t.b :: t.c :: acc) []

/-- Modelled from the spec: bounding box of the mesh (`none` for an empty
mesh, which the Loader has already rejected). -/
def meshBBox (ts : List Tri) : Option BBox3 :=
  match meshVerts ts with
  | [] => none
  | v :: vs =>
    some (vs.foldl
      (fun bb w => BBox3.mk (qmin bb.x0 w.x) (qmax bb.x1 w.x)
        (qmin bb.y0 w.y) (qmax bb.y1 w.y) (qmin bb.z0 w.z) (qmax bb.z1 w.z))
      (BBox3.mk v.x v.x v.y v.y v.z v.z))

/-- Zero extent in all three axes (a point-like bounding box); value
comparison of the exact coordinates. -/
def zeroExt3B (bb : BBox3) : Bool :=
  qeqB bb.x0 bb.x1 && qeqB bb.y0 bb.y1 && qeqB bb.z0 bb.z1

/-- Modelled from the spec: the fixed default viewing angle, an
axonometric-style projection with exact rational coefficients: the screen
abscissa, ordinate and view depth of a mesh-space point. -/
def projU (v : Vec3) : Q := qsub v.x v.z

def projV (v : Vec3) : Q := qadd v.y (qhalf (qadd v.x v.z))

def projD (v : Vec3) : Q := qadd v.x v.z

/-- Bounding box of the projected vertices (`none` for an empty mesh). -/
def projBBox (ts : List Tri) : Option BBox2 :=
  match meshVerts ts with
  | [] => none
  | v :: vs =>
    some (vs.foldl
      (fun bb w => BBox2.mk (qmin bb.u0 (projU w)) (qmax bb.u1 (projU w))
        (qmin bb.v0 (projV w)) (qmax bb.v1 (projV w)))
      (BBox2.mk (projU v) (projU v) (projV v) (projV v)))

/-- Camera transform from projected coordinates to screen coordinates:
a uniform scale and offsets. -/
structure Cam where
  scale : Q
  offU : Q
  offV : Q
  deriving DecidableEq

/-- Modelled from the spec: frame the projected mesh inside the target
image with a uniform margin of one tenth of the shorter image dimension,
scaling uniformly (aspect ratio preserved) and centering. -/
def camFrom (s : RenderSettings) (bb : BBox2) : Cam :=
  let w := qOfNat s.width
  let h := qOfNat s.height
  let margin := qdiv (qmin w h) (qOfNat 10)
  let two := qOfNat 2
  let aw := qsub w (qmul two margin)
  let ah := qsub h (qmul two margin)
  let du := qsub bb.u1 bb.u0
  let dv := qsub bb.v1 bb.v0
  let sc :=
    if qeqB du (qOfNat 0) then
      (if qeqB dv (qOfNat 0) then qOfNat 1 else qdiv ah dv)
    else if qeqB dv (qOfNat 0) then qdiv aw du
    else qmin (qdiv aw du) (qdiv ah dv)
  let ou := qsub (qadd margin (qhalf (qsub aw (qmul sc du)))) (qmul sc bb.u0)
  let ov := qsub (qadd margin (qhalf (qsub ah (qmul sc dv)))) (qmul sc bb.v0)
  Cam.mk sc ou ov

/-- Modelled from the spec: the Scene Normalizer: fails with
`ParseError.degenerate` when the bounding box has zero extent in all three
axes, otherwise produces the framing camera transform. -/
def normalize (s : RenderSettings) (ts : List Tri) : Except RenderError Cam :=
  match meshBBox ts, projBBox ts with
  | some b3, some b2 =>
    if zeroExt3B b3 then .error (.parse .degenerate) else .ok (camFrom s b2)
  | _, _ => .error (.parse .empty)

/-! ## Rasterizer (spec section 4.3) -/

/-- One RGBA8888 pixel. -/
structure Pix where
  r : Nat
  g : Nat
  b : Nat
  a : Nat
  deriving DecidableEq

/-- Screen abscissa of a mesh-space vertex under a camera. -/
def scrU (cam : Cam) (v : Vec3) : Q := qadd cam.offU (qmul cam.scale (projU v))

/-- Screen ordinate of a mesh-space vertex under a camera. -/
def scrV (cam : Cam) (v : Vec3) : Q := qadd cam.offV (qmul cam.scale (projV v))

/-- Edge function of the directed edge from `p` to `q` evaluated at `r`:
twice the signed area of the triangle `p q r`. -/
def edgeF (p1 p2 q1 q2 r1 r2 : Q) : Q :=
  qsub (qmul (qsub q1 p1) (qsub r2 p2)) (qmul (qsub q2 p2) (qsub r1 p1))

/-- Modelled from the spec: pixel coverage of one triangle by the standard
edge-function (barycentric) test, accepting both windings; degenerate
triangles flagged by the Loader and zero-area projections are skipped. -/
def coverB (cam : Cam) (t : Tri) (sx sy : Q) : Bool :=
  if t.flag then false
  else
    let a1 := scrU cam t.a
    let a2 := scrV cam t.a
    let b1 := scrU cam t.b
    let b2 := scrV cam t.b
    let c1 := scrU cam t.c
    let c2 := scrV cam t.c
    let e1 := edgeF a1 a2 b1 b2 sx sy
    let e2 := edgeF b1 b2 c1 c2 sx sy
    let e3 := edgeF c1 c2 a1 a2 sx sy
    let ar := edgeF a1 a2 b1 b2 c1 c2
    !qeqB ar (qOfNat 0) &&
      ((qleB (qOfNat 0) e1 && qleB (qOfNat 0) e2 && qleB (qOfNat 0) e3) ||
        (qleB e1 (qOfNat 0) && qleB e2 (qOfNat 0) && qleB e3 (qOfNat 0)))

/-- Interpolated view depth of a triangle at a sample point, from the
barycentric weights given by the edge functions. -/
def triDepth (cam : Cam) (t : Tri) (sx sy : Q) : Q :=
  let a1 := scrU cam t.a
  let a2 := scrV cam t.a
  let b1 := scrU cam t.b
  let b2 := scrV cam t.b
  let c1 := scrU cam t.c
  let c2 := scrV cam t.c
  let ar := edgeF a1 a2 b1 b2 c1 c2
  let wa := qdiv (edgeF b1 b2 c1 c2 sx sy) ar
  let wb := qdiv (edgeF c1 c2 a1 a2 sx sy) ar
  let wc := qdiv (edgeF a1 a2 b1 b2 sx sy) ar
  qadd (qadd (qmul wa (projD t.a)) (qmul wb (projD t.b))) (qmul wc (projD t.c))

/-- Modelled from the spec: flat Lambertian shade of a triangle from a
fixed directional light using the triangle normal, clamped to a minimum
ambient floor of one fifth; the normal is normalized with its 1-norm, an
exact-arithmetic stand-in for the Euclidean norm. -/
def shadeOf (t : Tri) : Q :=
  let nn := qadd (qadd (Q.mk t.nrm.x.n.natAbs t.nrm.x.d) (Q.mk t.nrm.y.n.natAbs t.nrm.y.d))
    (Q.mk t.nrm.z.n.natAbs t.nrm.z.d)
  let nl := qdiv (qadd (qadd t.nrm.x t.nrm.y) t.nrm.z) (qOfNat 3)
  let lam := if qeqB nn (qOfNat 0) then qOfNat 0
    else qmax (qOfNat 0) (qdiv nl nn)
  qadd (mkQ 1 5) (qmul (mkQ 4 5) lam)

/-- Gray level byte of a shade value. -/
def byteOf (sh : Q) : Nat := (qfloor (qmul sh (qOfNat 255))).toNat

/-- Fully opaque flat-shaded color of a triangle. -/
def colorOf (t : Tri) : Pix :=
  Pix.mk (byteOf (shadeOf t)) (byteOf (shadeOf t)) (byteOf (shadeOf t)) 255

/-- Depth-buffer step: keep the nearest covering triangle seen so far. -/
def stepT (cam : Cam) (sx sy : Q) (acc : Option (Q × Pix)) (t : Tri) :
    Option (Q × Pix) :=
  if coverB cam t sx sy then
    let d := triDepth cam t sx sy
    match acc with
    | none => some (d, colorOf t)
    | some (d0, c0) => if qltB d d0 then some (d, colorOf t) else some (d0, c0)
  else acc

/-- Modelled from the spec: per-pixel depth-resolved shading: the nearest
covering triangle wins, independent of input order; `none` when no triangle
covers the sample. -/
def shadePix (cam : Cam) (ts : List Tri) (sx sy : Q) : Option (Q × Pix) :=
  ts.foldl (stepT cam sx sy) none

/-- Sample position at a pixel center. -/
def sampleAt (k : Nat) : Q := Q.mk (2 * Int.ofNat k + 1) 2

/-- Modelled from the spec: the rasterized pixel at integer coordinates:
background pixels not covered by any triangle are fully transparent
(alpha 0); covered pixels take the flat shade of the nearest triangle. -/
def rasterPix (cam : Cam) (ts : List Tri) (x y : Nat) : Pix :=
  match shadePix cam ts (sampleAt x) (sampleAt y) with
  | none => Pix.mk 0 0 0 0
  | some dc => dc.2

/-! ## Annotator (spec section 4.4) -/

/-- Footprint of the size-hint overlay: a short bar near the bottom-left
corner of the image. -/
def overlayB (s : RenderSettings) (x y : Nat) : Bool :=
  decide (y + 2 = s.height) && decide (4 ≤ x) && decide (4 * x + 16 ≤ s.width)

/-- Modelled from the spec: the Annotator: when `size_hint` is set, draw a
lightweight opaque overlay without altering pixels outside its footprint;
a no-op when `size_hint` is false.  This stage never fails. -/
def annPix (s : RenderSettings) (cam : Cam) (ts : List Tri) (x y : Nat) : Pix :=
  if s.size_hint && overlayB s x y then Pix.mk 80 80 80 255
  else rasterPix cam ts x y

/-! ## Buffer Exporter (spec section 4.5) -/

/-- Finished framebuffer: target dimensions and the per-pixel color map;
the pixel grid is materialized row-major at export time. -/
structure Frame where
  w : Nat
  h : Nat
  pix : Nat → Nat → Pix

/-- The finished framebuffer of a render: rasterized then annotated. -/
def makeFrame (s : RenderSettings) (cam : Cam) (ts : List Tri) : Frame :=
  Frame.mk s.width s.height (annPix s cam ts)

/-- RGBA8888 byte quadruple of one pixel. -/
def pixChunk (p : Pix) : List Nat := [p.r, p.g, p.b, p.a]

/-- Row-major byte serialization of `n` pixels starting at linear pixel
index `i` of a `w`-wide image. -/
def pixBytes (w : Nat) (f : Nat → Nat → Pix) : Nat → Nat → List Nat
  | _, 0 => []
  | i, Nat.succ n => pixChunk (f (i % w) (i / w)) ++ pixBytes w f (i + 1) n

/-- Modelled from the spec: the Buffer Exporter: packages the framebuffer
into the caller-owned descriptor with tightly packed rows
(stride = 4 bytes per pixel times the width). -/
def exportFrame (fr : Frame) : PictureBuffer :=
  let bytes := pixBytes fr.w fr.pix 0 (fr.w * fr.h)
  PictureBuffer.mk (some bytes) bytes.length (4 * fr.w) 4

/-! ## Execution Guard and pipeline (spec sections 4.6, 6, 7) -/

/-- Modelled from the spec: the Execution Guard check at one coarse-grained
safe point between pipeline stages.  `clk i` is the wall-clock time elapsed
when checkpoint `i` is reached (an oracle: the stand-in of the model for real
time); a nonzero timeout that has elapsed aborts with `timedOut`, and
`timeout = 0` disables the guard entirely. -/
def guardCheck (s : RenderSettings) (clk : Nat → Nat) (i : Nat) :
    Except RenderError Unit :=
  if s.timeout ≠ 0 ∧ s.timeout < clk i then .error .timedOut else .ok ()

/-- Modelled from the spec: reading the file at the given path; the file
content is abstracted as an optional byte list, `none` meaning the file is
missing or unreadable (`ioError`). -/
def readContent : Option (List Nat) → Except RenderError (List Nat)
  | none => .error .ioError
  | some bs => .ok bs

/-- Modelled from the spec: the full pipeline
Loader - Normalizer - Rasterizer - Annotator - Exporter with the Execution
Guard checking the clock at the four stage boundaries (checkpoints 0 to 3);
rasterization and annotation are pure per-pixel maps materialized by the
Exporter. -/
def pipeline (c : Option (List Nat)) (s : RenderSettings) (clk : Nat → Nat) :
    Except RenderError Frame :=
  (guardCheck s clk 0).bind fun _ =>
  (readContent c).bind fun bytes =>
  (loadMesh bytes).bind fun ts =>
  (guardCheck s clk 1).bind fun _ =>
  (normalize s ts).bind fun cam =>
  (guardCheck s clk 2).bind fun _ =>
  (guardCheck s clk 3).bind fun _ =>
  .ok (makeFrame s cam ts)

/-- Modelled from the spec: the external entry point `render`: every error
from below the Exporter is collapsed into the single null-buffer failure
signal; on success the exported buffer crosses to the caller. -/
def render (c : Option (List Nat)) (s : RenderSettings) (clk : Nat → Nat) :
    PictureBuffer :=
  match pipeline c s clk with
  | .error _ => nullPicture
  | .ok fr => exportFrame fr

/-! ## KDE plugin shim (desktop_integration/kde/thumbcreator.cpp) -/

/-- Container keeping the picture buffer alive for the lifetime of the
platform image object (struct PicContainer of thumbcreator.cpp). -/
structure PicContainer where
  buffer : PictureBuffer
  deriving DecidableEq

/-- Observable resource effects of the shim: releasing a picture buffer
through the paired free function, and deleting a heap container. -/
inductive Effect where
  | freePictureBuffer (b : PictureBuffer)
  | deleteContainer (c : PicContainer)
  deriving DecidableEq

/-- Embedding of the `cleanup` callback of thumbcreator.cpp: frees the
contained picture buffer through the paired free function, then deletes
the container. -/
def cleanup (c : PicContainer) : List Effect :=
  [Effect.freePictureBuffer c.buffer, Effect.deleteContainer c]

/-- Platform image object (QImage) as the shim uses it: pixel data source,
geometry, and the cleanup effects that Qt runs exactly once when the image
object is destroyed (the QImage cleanup-function contract). -/
structure ImageObj where
  buffer : PictureBuffer
  width : Nat
  height : Nat
  stride : Nat
  onDestroy : List Effect
  deriving DecidableEq

/-- Destroying a platform image object runs its cleanup effects once. -/
def destroyImage (o : ImageObj) : List Effect := o.onDestroy

/-- Result of StlThumbCreator::create: the returned flag, the state of the
caller-supplied image argument after the call, and the containers the call
allocated. -/
structure CreateResult where
  ok : Bool
  imgOut : Option ImageObj
  allocated : List PicContainer
  deriving DecidableEq

/-- Embedding of StlThumbCreator::create of thumbcreator.cpp, parametrized
by the picture buffer that s2t_render returned for the requested path and
size: a null data pointer returns false with the image argument untouched
and nothing allocated; otherwise the buffer is stored in a fresh container
and wrapped in an image object whose cleanup callback frees the buffer. -/
def create (pic : PictureBuffer) (w h : Nat) (imgIn : Option ImageObj) :
    CreateResult :=
  match pic.data with
  | none => CreateResult.mk false imgIn []
  | some _ =>
    let cont := PicContainer.mk pic
    CreateResult.mk true
      (some (ImageObj.mk pic w h pic.stride (cleanup cont))) [cont]

/-! ## Concrete inputs used by witnesses and scenarios -/

/-- Little-endian bytes of the binary32 number 0.0. -/
def f32zero : List Nat := [0, 0, 0, 0]

/-- Little-endian bytes of the binary32 number 1.0. -/
def f32one : List Nat := [0, 0, 128, 63]

/-- Little-endian bytes of the binary32 number -1.0. -/
def f32negOne : List Nat := [0, 0, 128, 191]

/-- Twelve bytes of one encoded vector. -/
def v3b (x y z : List Nat) : List Nat := x ++ y ++ z

/-- One 50-byte binary STL triangle record with a zero attribute word. -/
def triRec (n a b c : List Nat) : List Nat := n ++ a ++ b ++ c ++ [0, 0]

/-- A valid 12-triangle unit-cube binary STL file: 80-byte zero header, the
count 12, and the twelve face triangles with outward axis normals. -/
def cubeStlBytes : List Nat :=
  List.replicate 80 0 ++ [12, 0, 0, 0] ++
  triRec (v3b f32negOne f32zero f32zero) (v3b f32zero f32zero f32zero)
    (v3b f32zero f32one f32zero) (v3b f32zero f32one f32one) ++
  triRec (v3b f32negOne f32zero f32zero) (v3b f32zero f32zero f32zero)
    (v3b f32zero f32one f32one) (v3b f32zero f32zero f32one) ++
  triRec (v3b f32one f32zero f32zero) (v3b f32one f32zero f32zero)
    (v3b f32one f32one f32one) (v3b f32one f32one f32zero) ++
  triRec (v3b f32one f32zero f32zero) (v3b f32one f32zero f32zero)
    (v3b f32one f32zero f32one) (v3b f32one f32one f32one) ++
  triRec (v3b f32zero f32negOne f32zero) (v3b f32zero f32zero f32zero)
    (v3b f32one f32zero f32one) (v3b f32one f32zero f32zero) ++
  triRec (v3b f32zero f32negOne f32zero) (v3b f32zero f32zero f32zero)
    (v3b f32zero f32zero f32one) (v3b f32one f32zero f32one) ++
  triRec (v3b f32zero f32one f32zero) (v3b f32zero f32one f32zero)
    (v3b f32one f32one f32zero) (v3b f32one f32one f32one) ++
  triRec (v3b f32zero f32one f32zero) (v3b f32zero f32one f32zero)
    (v3b f32one f32one f32one) (v3b f32zero f32one f32one) ++
  triRec (v3b f32zero f32zero f32negOne) (v3b f32zero f32zero f32zero)
    (v3b f32one f32one f32zero) (v3b f32one f32zero f32zero) ++
  triRec (v3b f32zero f32zero f32negOne) (v3b f32zero f32zero f32zero)
    (v3b f32zero f32one f32zero) (v3b f32one f32one f32zero) ++
  triRec (v3b f32zero f32zero f32one) (v3b f32zero f32zero f32one)
    (v3b f32one f32zero f32one) (v3b f32one f32one f32one) ++
  triRec (v3b f32zero f32zero f32one) (v3b f32zero f32zero f32one)
    (v3b f32one f32one f32one) (v3b f32zero f32one f32one)

/-- A valid binary STL whose single triangle has all three vertices at the
origin: a mesh whose bounding box has zero extent in all three axes. -/
def pointStlBytes : List Nat :=
  List.replicate 80 0 ++ [1, 0, 0, 0] ++ List.replicate 50 0

/-- A truncated binary STL: the header declares 5 triangles but no record
bytes follow. -/
def truncStlBytes : List Nat := List.replicate 80 0 ++ [5, 0, 0, 0]

/-- A header-only binary STL declaring zero triangles. -/
def emptyStlBytes : List Nat := List.replicate 84 0

/-- Settings of the cube scenario: 256 by 256, no size hint, no timeout. -/
def cubeSettings : RenderSettings := RenderSettings.mk 256 256 false 0

/-- Default settings of the point scenario: 64 by 64, no size hint, no
timeout. -/
def defaultSettings : RenderSettings := RenderSettings.mk 64 64 false 0

/-- Settings with a minimal nonzero timeout of one time unit. -/
def timeoutSettings : RenderSettings := RenderSettings.mk 256 256 false 1

/-- Clock oracle of an invocation that reaches every checkpoint instantly. -/
def zeroClock : Nat → Nat := fun _ => 0

/-- Clock oracle of an invocation on which two time units have already
elapsed at every checkpoint. -/
def slowClock : Nat → Nat := fun _ => 2

/-- The parsed cube mesh (empty list in the unreachable failure branch). -/
def cubeMesh : List Tri :=
  match loadMesh cubeStlBytes with
  | .ok ts => ts
  | .error _ => []

/-- The camera of the cube scenario (identity-like in the unreachable
failure branch). -/
def cubeCam : Cam :=
  match normalize cubeSettings cubeMesh with
  | .ok cam => cam
  | .error _ => Cam.mk (qOfNat 1) (qOfNat 0) (qOfNat 0)

/-- The input parses successfully with at least one triangle: how the model
reads a valid non-empty STL input (the Loader rejects empty meshes). -/
def validNonEmptyB (bytes : List Nat) : Bool :=
  match loadMesh bytes with
  | .ok _ => true
  | .error _ => false

/-- The input parses successfully to the empty triangle list. -/
def parsesToZeroB (bytes : List Nat) : Bool :=
  match parseStl bytes with
  | .ok [] => true
  | _ => false

/-- The input loads successfully and its mesh bounding box has zero extent
in all three axes. -/
def degenerateLoadB (bytes : List Nat) : Bool :=
  match loadMesh bytes with
  | .error _ => false
  | .ok ts =>
    match meshBBox ts with
    | none => false
    | some bb => zeroExt3B bb

/-- The input loads successfully and its mesh bounding box has nonzero
extent in at least one axis, so the Scene Normalizer accepts it. -/
def renderableB (bytes : List Nat) : Bool :=
  match loadMesh bytes with
  | .error _ => false
  | .ok ts =>
    match meshBBox ts with
    | none => false
    | some bb => !zeroExt3B bb

/-- Some mesh triangle covers the sample at pixel `(x, y)` under the given
camera. -/
def coverAnyB (cam : Cam) (ts : List Tri) (x y : Nat) : Bool :=
  ts.any fun t => coverB cam t (sampleAt x) (sampleAt y)

/-! ## General lemmas about the pipeline -/

theorem except_bind_ok {α β : Type} (x : Except RenderError α)
    (f : α → Except RenderError β) (b : β) :
    x.bind f = .ok b ↔ ∃ a, x = .ok a ∧ f a = .ok b := by
  cases x <;> simp [Except.bind]

/-- The exported buffer of a successful pipeline has non-null data, so the
null data pointer characterizes pipeline failure exactly. -/
theorem render_data_none_iff (c : Option (List Nat)) (s : RenderSettings)
    (clk : Nat → Nat) :
    (render c s clk).data = none ↔ ∃ e, pipeline c s clk = .error e := by
  cases hp : pipeline c s clk with
  | error e => simp [render, hp, nullPicture]
  | ok fr => simp [render, hp, exportFrame]

theorem render_data_none_of_no_ok (c : Option (List Nat)) (s : RenderSettings)
    (clk : Nat → Nat) (h : ∀ fr, pipeline c s clk ≠ .ok fr) :
    (render c s clk).data = none := by
  cases hp : pipeline c s clk with
  | error e => simp [render, hp, nullPicture]
  | ok fr => exact absurd hp (h fr)

/-- A guard check passes when the guard is disabled or the clock is still
within the budget. -/
theorem guardCheck_ok_of (s : RenderSettings) (clk : Nat → Nat) (i : Nat)
    (h : s.timeout = 0 ∨ ∀ j, clk j ≤ s.timeout) :
    guardCheck s clk i = .ok () := by
  rcases h with h0 | hall
  · simp [guardCheck, h0]
  · have hc : ¬(s.timeout ≠ 0 ∧ s.timeout < clk i) := by
      rintro ⟨-, hlt⟩
      exact absurd hlt (not_lt.mpr (hall i))
    simp [guardCheck, hc]

/-- Exhaustive characterization of a successful pipeline run: all four
guard checkpoints pass, the stages succeed in order, and the resulting
frame is the annotated rasterization. -/
theorem pipeline_ok_iff (c : Option (List Nat)) (s : RenderSettings)
    (clk : Nat → Nat) (fr : Frame) :
    pipeline c s clk = .ok fr ↔
      guardCheck s clk 0 = .ok () ∧ guardCheck s clk 1 = .ok () ∧
      guardCheck s clk 2 = .ok () ∧ guardCheck s clk 3 = .ok () ∧
      ∃ bytes ts cam, readContent c = .ok bytes ∧ loadMesh bytes = .ok ts ∧
        normalize s ts = .ok cam ∧ fr = makeFrame s cam ts := by
  constructor
  · intro h
    unfold pipeline at h
    rcases (except_bind_ok _ _ _).mp h with ⟨u0, hg0, h⟩
    rcases (except_bind_ok _ _ _).mp h with ⟨bytes, hrc, h⟩
    rcases (except_bind_ok _ _ _).mp h with ⟨ts, hlm, h⟩
    rcases (except_bind_ok _ _ _).mp h with ⟨u1, hg1, h⟩
    rcases (except_bind_ok _ _ _).mp h with ⟨cam, hn, h⟩
    rcases (except_bind_ok _ _ _).mp h with ⟨u2, hg2, h⟩
    rcases (except_bind_ok _ _ _).mp h with ⟨u3, hg3, h⟩
    cases u0; cases u1; cases u2; cases u3
    refine ⟨hg0, hg1, hg2, hg3, bytes, ts, cam, hrc, hlm, hn, ?_⟩
    injection h with h
    exact h.symm
  · rintro ⟨hg0, hg1, hg2, hg3, bytes, ts, cam, hrc, hlm, hn, rfl⟩
    unfold pipeline
    simp [Except.bind, hg0, hrc, hlm, hg1, hn, hg2, hg3]

/-- The serialized buffer holds exactly 4 bytes per pixel. -/
theorem pixBytes_length (w : Nat) (f : Nat → Nat → Pix) :
    ∀ (n i : Nat), (pixBytes w f i n).length = 4 * n := by
  intro n
  induction n with
  | zero => intro i; rfl
  | succ k ih =>
    intro i
    simp [pixBytes, pixChunk, ih (i + 1)]
    omega

/-- Byte `c` of serialized pixel `p` is component `c` of the pixel at
linear index `i + p` of the image. -/
theorem pixBytes_getElem (w : Nat) (f : Nat → Nat → Pix) :
    ∀ (n i p c : Nat), p < n → c < 4 →
      (pixBytes w f i n)[4 * p + c]? =
        (pixChunk (f ((i + p) % w) ((i + p) / w)))[c]? := by
  intro n
  induction n with
  | zero => intro i p c hp _; exact absurd hp (Nat.not_lt_zero p)
  | succ k ih =>
    intro i p c hp hc
    cases p with
    | zero =>
      show (pixChunk (f (i % w) (i / w)) ++ pixBytes w f (i + 1) k)[4 * 0 + c]? = _
      rw [List.getElem?_append_left (by simp [pixChunk]; omega)]
      simp
    | succ p' =>
      show (pixChunk (f (i % w) (i / w)) ++ pixBytes w f (i + 1) k)[4 * (p' + 1) + c]? = _
      rw [List.getElem?_append_right (by simp [pixChunk]; omega)]
      have hidx : 4 * (p' + 1) + c - (pixChunk (f (i % w) (i / w))).length =
          4 * p' + c := by
        simp [pixChunk]; omega
      rw [hidx, ih (i + 1) p' c (by omega) hc]
      have harg : i + 1 + p' = i + (p' + 1) := by omega
      rw [harg]

/-- A triangle that does not cover the sample leaves the depth-buffer
accumulator unchanged. -/
theorem stepT_skip (cam : Cam) (sx sy : Q) (acc : Option (Q × Pix)) (t : Tri)
    (h : coverB cam t sx sy = false) : stepT cam sx sy acc t = acc := by
  simp [stepT, h]

/-- When no triangle covers the sample, the depth-buffer fold returns its
starting accumulator. -/
theorem foldl_stepT_id (cam : Cam) (sx sy : Q) :
    ∀ (l : List Tri) (acc : Option (Q × Pix)),
      (∀ t ∈ l, coverB cam t sx sy = false) →
      l.foldl (stepT cam sx sy) acc = acc := by
  intro l
  induction l with
  | nil => intro acc _; rfl
  | cons t r ih =>
    intro acc h
    have ht : coverB cam t sx sy = false := h t (List.mem_cons_self t r)
    show List.foldl (stepT cam sx sy) (stepT cam sx sy acc t) r = acc
    rw [stepT_skip cam sx sy acc t ht]
    exact ih acc fun u hu => h u (List.mem_cons_of_mem t hu)

/-- A pixel whose sample is covered by no triangle is fully transparent:
the rasterizer leaves it at the zero (background) color. -/
theorem rasterPix_background (cam : Cam) (ts : List Tri) (x y : Nat)
    (h : coverAnyB cam ts x y = false) :
    rasterPix cam ts x y = Pix.mk 0 0 0 0 := by
  have hall : ∀ t ∈ ts, coverB cam t (sampleAt x) (sampleAt y) = false := by
    intro t ht
    by_contra hc
    have htrue : coverB cam t (sampleAt x) (sampleAt y) = true := by
      revert hc; cases coverB cam t (sampleAt x) (sampleAt y) <;> simp
    have : coverAnyB cam ts x y = true :=
      List.any_eq_true.mpr ⟨t, ht, htrue⟩
    rw [h] at this
    cases this
  have hnone : shadePix cam ts (sampleAt x) (sampleAt y) = none :=
    foldl_stepT_id cam (sampleAt x) (sampleAt y) ts none hall
  simp [rasterPix, hnone]

/-- A mesh with a 3D bounding box also has a projected bounding box. -/
theorem projBBox_some_of (ts : List Tri) (bb : BBox3)
    (h : meshBBox ts = some bb) : ∃ b2, projBBox ts = some b2 := by
  unfold meshBBox at h
  unfold projBBox
  cases hv : meshVerts ts with
  | nil => rw [hv] at h; cases h
  | cons v vs => exact ⟨_, rfl⟩

/-- The Scene Normalizer accepts every mesh whose bounding box has nonzero
extent in some axis. -/
theorem normalize_ok (s : RenderSettings) (ts : List Tri) (bb : BBox3)
    (hb : meshBBox ts = some bb) (hz : zeroExt3B bb = false) :
    ∃ cam, normalize s ts = .ok cam := by
  rcases projBBox_some_of ts bb hb with ⟨b2, hb2⟩
  refine ⟨camFrom s b2, ?_⟩
  unfold normalize
  rw [hb, hb2]
  simp [hz]

/-! ## Claims -/

/-- C2: for every input on which the pipeline fails (`ioError`, any parse
error, `timedOut`, or `internalError`), `render` returns a `PictureBuffer`
with null data, and the null data pointer is the sole failure signal: the
buffer returned on failure is the one fixed sentinel carrying no error
code, message, or partial pixel data (the `PictureBuffer` type itself, as
declared in stl2thumbnail.h, has no error field at all). -/
theorem c2_null_sole_failure_signal (c : Option (List Nat))
    (s : RenderSettings) (clk : Nat → Nat) :
    ((render c s clk).data = none ↔ ∃ e, pipeline c s clk = .error e) ∧
    (∀ e, pipeline c s clk = .error e → render c s clk = nullPicture) := by
  refine ⟨render_data_none_iff c s clk, ?_⟩
  intro e he
  simp [render, he]

/-- Witness for C2 at a concrete failing input: a missing file fails with
`ioError` and the boundary reports exactly the null sentinel. -/
theorem c2_witness : render none defaultSettings zeroClock = nullPicture :=
  (c2_null_sole_failure_signal none defaultSettings zeroClock).2
    RenderError.ioError rfl

/-- C3: for every truncated binary STL file, one whose declared 4-byte
little-endian triangle count needs more bytes than the file holds,
`render` returns the null-data buffer; the parser rejects the file with a
clean `truncated` error produced by the count-versus-length validation, and
every byte access in the model goes through the bounds-checked `slice?`,
so no read is ever out of bounds. -/
theorem c3_truncated_null (bytes : List Nat) (s : RenderSettings)
    (clk : Nat → Nat) (ha : detectAscii bytes = false)
    (ht : bytes.length < 84 + 50 * declCount bytes) :
    (render (some bytes) s clk).data = none ∧
    parseStl bytes = .error .truncated := by
  have hp : parseStl bytes = .error .truncated := by
    unfold parseStl
    rw [ha]
    show parseBinary bytes = .error .truncated
    unfold parseBinary
    by_cases h84 : bytes.length < 84
    · rw [if_pos h84]
    · rw [if_neg h84, if_pos ht]
  refine ⟨?_, hp⟩
  apply render_data_none_of_no_ok
  intro fr hok
  rcases (pipeline_ok_iff _ _ _ _).mp hok with ⟨-, -, -, -, b2, ts, cam, hrc, hlm, -, -⟩
  simp [readContent] at hrc
  subst hrc
  unfold loadMesh at hlm
  rw [hp] at hlm
  cases hlm

/-- Witness for C3: a file with an 80-byte header declaring 5 triangles
but containing no record bytes. -/
theorem c3_witness :
    (render (some truncStlBytes) defaultSettings zeroClock).data = none ∧
    parseStl truncStlBytes = .error .truncated :=
  c3_truncated_null truncStlBytes defaultSettings zeroClock (by decide)
    (by decide)

/-- C4: for every STL file that parses to zero triangles, including a
header-only file, `render` returns the null-data buffer: the empty mesh is
rejected by the Loader with the `empty` parse error and is never rendered
as a blank image. -/
theorem c4_empty_mesh_null (bytes : List Nat) (s : RenderSettings)
    (clk : Nat → Nat) (h : parsesToZeroB bytes = true) :
    (render (some bytes) s clk).data = none := by
  apply render_data_none_of_no_ok
  intro fr hok
  rcases (pipeline_ok_iff _ _ _ _).mp hok with ⟨-, -, -, -, b2, ts, cam, hrc, hlm, -, -⟩
  simp [readContent] at hrc
  subst hrc
  unfold parsesToZeroB at h
  unfold loadMesh at hlm
  cases hps : parseStl bytes with
  | error e => rw [hps] at hlm; cases hlm
  | ok l =>
    cases l with
    | nil => rw [hps] at hlm; cases hlm
    | cons t r => rw [hps] at h; cases h

/-- Witness for C4: a header-only binary STL (84 zero bytes, declared
count 0). -/
theorem c4_witness :
    (render (some emptyStlBytes) defaultSettings zeroClock).data = none :=
  c4_empty_mesh_null emptyStlBytes defaultSettings zeroClock (by decide)

/-- C5: for every mesh whose bounding box has zero extent in all three
axes (zero volume, such as a single point), `render` returns the null-data
buffer: the Scene Normalizer fails with the `degenerate` parse error and
the failure is reported upward as an overall render failure. -/
theorem c5_degenerate_null (bytes : List Nat) (s : RenderSettings)
    (clk : Nat → Nat) (h : degenerateLoadB bytes = true) :
    (render (some bytes) s clk).data = none := by
  apply render_data_none_of_no_ok
  intro fr hok
  rcases (pipeline_ok_iff _ _ _ _).mp hok with ⟨-, -, -, -, b2, ts, cam, hrc, hlm, hn, -⟩
  simp [readContent] at hrc
  subst hrc
  have h1 : (match meshBBox ts with
      | none => false
      | some bb => zeroExt3B bb) = true := by
    unfold degenerateLoadB at h
    rw [hlm] at h
    exact h
  cases hb : meshBBox ts with
  | none => rw [hb] at h1; cases h1
  | some bb =>
    have h2 : zeroExt3B bb = true := by rw [hb] at h1; exact h1
    rcases projBBox_some_of ts bb hb with ⟨b2x, hb2⟩
    unfold normalize at hn
    rw [hb, hb2] at hn
    simp [h2] at hn

/-- Witness for C5: the single-triangle STL whose vertices are all at the
origin. -/
theorem c5_witness :
    (render (some pointStlBytes) defaultSettings zeroClock).data = none :=
  c5_degenerate_null pointStlBytes defaultSettings zeroClock (by decide)

/-- C7: the Execution Guard: with a nonzero timeout, once the elapsed
wall-clock time observed at any of the four stage-boundary checkpoints
exceeds the budget, `render` returns the null-data failure sentinel (the
pipeline aborts at that checkpoint, so the overshoot is bounded by one
stage, never unbounded processing); and `timeout = 0` disables the guard
entirely: the result does not depend on the clock at all. -/
theorem c7_timeout_guard (c : Option (List Nat)) (s : RenderSettings)
    (clk : Nat → Nat) :
    (∀ i, i ≤ 3 → s.timeout ≠ 0 → s.timeout < clk i →
      (render c s clk).data = none) ∧
    (s.timeout = 0 → ∀ clk2, render c s clk = render c s clk2) := by
  constructor
  · intro i hi ht hlt
    apply render_data_none_of_no_ok
    intro fr hok
    rcases (pipeline_ok_iff _ _ _ _).mp hok with ⟨hg0, hg1, hg2, hg3, -⟩
    have hgi : guardCheck s clk i = .ok () := by
      have hcase : i = 0 ∨ i = 1 ∨ i = 2 ∨ i = 3 := by omega
      rcases hcase with rfl | rfl | rfl | rfl <;> assumption
    unfold guardCheck at hgi
    rw [if_pos ⟨ht, hlt⟩] at hgi
    cases hgi
  · intro h0 clk2
    have hg : ∀ (k : Nat → Nat) (i : Nat), guardCheck s k i = .ok () :=
      fun k i => guardCheck_ok_of s k i (Or.inl h0)
    simp only [render, pipeline, hg]

/-- Witness for C7: the cube scene with timeout 1 and a clock that has
already measured 2 units at the first checkpoint returns the null
sentinel. -/
theorem c7_witness :
    (render (some cubeStlBytes) timeoutSettings slowClock).data = none :=
  (c7_timeout_guard (some cubeStlBytes) timeoutSettings slowClock).1 0
    (by decide) (by decide) (by decide)

/-- C1 counterexample: the claim as stated is false on the modelled code:
`pointStlBytes` is a valid, non-empty binary STL input (it loads
successfully with one triangle), yet `render` returns the null-data
sentinel, because the spec itself makes the Scene Normalizer reject a mesh
whose bounding box has zero extent in all three axes (section 4.2), and a
nonzero timeout can likewise abort a valid input. -/
theorem c1_point_counterexample :
    validNonEmptyB pointStlBytes = true ∧
    (render (some pointStlBytes) defaultSettings zeroClock).data = none := by
  constructor
  · decide
  · rfl

/-- C1 (amended): for every valid non-empty binary or ASCII STL input whose
mesh bounding box has nonzero extent in some axis, and whenever the
execution guard does not fire (timeout 0, or the clock never exceeds the
budget), `render` returns a buffer whose data is non-null, whose `len`
equals `height * stride`, and whose `stride` is at least `width * 4`. -/
theorem c1_render_valid_nonempty_amended (bytes : List Nat)
    (s : RenderSettings) (clk : Nat → Nat) (hv : renderableB bytes = true)
    (hg : s.timeout = 0 ∨ ∀ j, clk j ≤ s.timeout) :
    (render (some bytes) s clk).data ≠ none ∧
    (render (some bytes) s clk).len =
      s.height * (render (some bytes) s clk).stride ∧
    s.width * 4 ≤ (render (some bytes) s clk).stride := by
  cases hlm : loadMesh bytes with
  | error e =>
    exfalso
    unfold renderableB at hv
    rw [hlm] at hv
    cases hv
  | ok ts =>
    have h1 : (match meshBBox ts with
        | none => false
        | some bb => !zeroExt3B bb) = true := by
      unfold renderableB at hv
      rw [hlm] at hv
      exact hv
    cases hb : meshBBox ts with
    | none => rw [hb] at h1; cases h1
    | some bb =>
      have h2 : zeroExt3B bb = false := by
        have hnot : (!zeroExt3B bb) = true := by
          rw [hb] at h1
          exact h1
        cases hz : zeroExt3B bb
        · rfl
        · rw [hz] at hnot; cases hnot
      rcases normalize_ok s ts bb hb h2 with ⟨cam, hn⟩
      have hp : pipeline (some bytes) s clk = .ok (makeFrame s cam ts) :=
        (pipeline_ok_iff _ _ _ _).mpr
          ⟨guardCheck_ok_of s clk 0 hg, guardCheck_ok_of s clk 1 hg,
            guardCheck_ok_of s clk 2 hg, guardCheck_ok_of s clk 3 hg,
            bytes, ts, cam, rfl, hlm, hn, rfl⟩
      have hr : render (some bytes) s clk = exportFrame (makeFrame s cam ts) := by
        unfold render
        rw [hp]
      rw [hr]
      refine ⟨by simp [exportFrame], ?_, ?_⟩
      · show (pixBytes s.width (annPix s cam ts) 0 (s.width * s.height)).length =
          s.height * (4 * s.width)
        rw [pixBytes_length]
        ring
      · show s.width * 4 ≤ 4 * s.width
        omega

/-- Witness for the amended C1: the 12-triangle unit cube at 256 by 256
with the guard disabled. -/
theorem c1_amended_witness :
    (render (some cubeStlBytes) cubeSettings zeroClock).data ≠ none :=
  (c1_render_valid_nonempty_amended cubeStlBytes cubeSettings zeroClock
    (by decide) (Or.inl rfl)).1

/-- C6 counterexample: determinism as stated, for every `RenderSettings`,
fails on the modelled code: with the minimal nonzero timeout that the spec
itself uses in its timeout scenario, the same file and the same settings give a
byte-identical-or-not result depending on the wall clock the guard
observes: an instant run renders the cube, a slow run returns the null
sentinel. -/
theorem c6_clock_counterexample :
    render (some cubeStlBytes) timeoutSettings zeroClock ≠
    render (some cubeStlBytes) timeoutSettings slowClock := by
  intro h
  have hA : (render (some cubeStlBytes) timeoutSettings zeroClock).data.isSome
      = true := by rfl
  have hB : render (some cubeStlBytes) timeoutSettings slowClock =
      nullPicture := by rfl
  rw [h, hB] at hA
  cases hA

/-- C6 (amended): `render` is deterministic as a function of the file
content, the settings, and the elapsed times the execution guard observes:
whenever `timeout = 0` (guard disabled), or both invocations complete with
a non-null buffer, two invocations with the same path and settings yield
byte-identical output buffers. -/
theorem c6_deterministic_amended (c : Option (List Nat)) (s : RenderSettings)
    (k1 k2 : Nat → Nat)
    (h : s.timeout = 0 ∨
      ((render c s k1).data ≠ none ∧ (render c s k2).data ≠ none)) :
    render c s k1 = render c s k2 := by
  rcases h with h0 | ⟨h1, h2⟩
  · have hg : ∀ (k : Nat → Nat) (i : Nat), guardCheck s k i = .ok () :=
      fun k i => guardCheck_ok_of s k i (Or.inl h0)
    simp only [render, pipeline, hg]
  · cases hp1 : pipeline c s k1 with
    | error e => exact absurd ((render_data_none_iff c s k1).mpr ⟨e, hp1⟩) h1
    | ok fr1 =>
      cases hp2 : pipeline c s k2 with
      | error e => exact absurd ((render_data_none_iff c s k2).mpr ⟨e, hp2⟩) h2
      | ok fr2 =>
        rcases (pipeline_ok_iff _ _ _ _).mp hp1 with
          ⟨-, -, -, -, b1, ts1, cam1, hr1, hl1, hn1, hf1⟩
        rcases (pipeline_ok_iff _ _ _ _).mp hp2 with
          ⟨-, -, -, -, b2, ts2, cam2, hr2, hl2, hn2, hf2⟩
        rw [hr1] at hr2
        injection hr2 with hb12
        subst hb12
        rw [hl1] at hl2
        injection hl2 with hts
        subst hts
        rw [hn1] at hn2
        injection hn2 with hcam
        subst hcam
        subst hf1
        subst hf2
        simp [render, hp1, hp2]

/-- Witness for the amended C6: the cube with the guard disabled renders
identically under two different clocks. -/
theorem c6_witness :
    render (some cubeStlBytes) cubeSettings zeroClock =
    render (some cubeStlBytes) cubeSettings slowClock :=
  c6_deterministic_amended (some cubeStlBytes) cubeSettings zeroClock
    slowClock (Or.inl rfl)

/-- C9: the KDE plugin shim honors the consumer contract: for every
successful render result (non-null data), StlThumbCreator::create wraps the
buffer in an image object bound to the paired free function through the
`cleanup` callback, creation itself releases nothing, and destroying the
image object invokes `free_picture_buffer` on that buffer exactly once, so
the lifetime of the buffer matches the lifetime of the image object. -/
theorem c9_create_binds_cleanup (pic : PictureBuffer) (w h : Nat)
    (imgIn : Option ImageObj) (hnn : pic.data ≠ none) :
    (create pic w h imgIn).ok = true ∧
    ∃ o, (create pic w h imgIn).imgOut = some o ∧ o.buffer = pic ∧
      (destroyImage o).count (Effect.freePictureBuffer pic) = 1 := by
  cases hd : pic.data with
  | none => exact absurd hd hnn
  | some bs =>
    refine ⟨by simp [create, hd], ?_⟩
    refine ⟨ImageObj.mk pic w h pic.stride (cleanup (PicContainer.mk pic)),
      by simp [create, hd], rfl, ?_⟩
    show (cleanup (PicContainer.mk pic)).count (Effect.freePictureBuffer pic) = 1
    simp [cleanup, List.count_cons]

/-- Witness for C9 at a concrete buffer holding one opaque pixel. -/
theorem c9_witness :
    (create (PictureBuffer.mk (some [0, 0, 0, 255]) 4 4 4) 1 1 none).ok
      = true ∧
    ∃ o, (create (PictureBuffer.mk (some [0, 0, 0, 255]) 4 4 4) 1 1
        none).imgOut = some o ∧
      o.buffer = PictureBuffer.mk (some [0, 0, 0, 255]) 4 4 4 ∧
      (destroyImage o).count
        (Effect.freePictureBuffer (PictureBuffer.mk (some [0, 0, 0, 255]) 4 4 4))
        = 1 :=
  c9_create_binds_cleanup (PictureBuffer.mk (some [0, 0, 0, 255]) 4 4 4) 1 1
    none (by decide)

/-- C10: StlThumbCreator::create returns false exactly when the render
result has a null data pointer, and in that failure case the image
argument of the caller is left completely unmodified and no cleanup
container is allocated: failure is atomic at the plugin boundary. -/
theorem c10_create_failure_atomic (pic : PictureBuffer) (w h : Nat)
    (imgIn : Option ImageObj) :
    ((create pic w h imgIn).ok = false ↔ pic.data = none) ∧
    (pic.data = none →
      (create pic w h imgIn).imgOut = imgIn ∧
      (create pic w h imgIn).allocated = []) := by
  cases hd : pic.data with
  | none => simp [create, hd]
  | some bs => simp [create, hd]

/-- Witness for C10 at the null sentinel: create fails, the image argument
stays untouched, nothing is allocated. -/
theorem c10_witness :
    (create nullPicture 1 1 none).ok = false ∧
    (create nullPicture 1 1 none).imgOut = none ∧
    (create nullPicture 1 1 none).allocated = [] :=
  ⟨(c10_create_failure_atomic nullPicture 1 1 none).1.mpr rfl,
    ((c10_create_failure_atomic nullPicture 1 1 none).2 rfl).1,
    ((c10_create_failure_atomic nullPicture 1 1 none).2 rfl).2⟩

/-- C8: rendering the valid 12-triangle unit-cube binary STL at 256 by 256
with no size hint and no timeout returns a buffer with non-null data and
depth 4 whose image contains a background pixel (covered by no triangle)
with alpha 0, at least one fully opaque pixel (alpha 255) in the interior,
and, in general, every pixel not covered by any triangle is transparent
(its alpha byte is 0). -/
theorem c8_cube_render_props :
    (render (some cubeStlBytes) cubeSettings zeroClock).data ≠ none ∧
    (render (some cubeStlBytes) cubeSettings zeroClock).depth = 4 ∧
    ∃ L, (render (some cubeStlBytes) cubeSettings zeroClock).data = some L ∧
      (∃ p, p < 65536 ∧ L[4 * p + 3]? = some 0 ∧
        coverAnyB cubeCam cubeMesh (p % 256) (p / 256) = false) ∧
      (∃ p, p < 65536 ∧ L[4 * p + 3]? = some 255) ∧
      (∀ x y, x < 256 → y < 256 → coverAnyB cubeCam cubeMesh x y = false →
        L[4 * (y * 256 + x) + 3]? = some 0) := by
  have hkey : render (some cubeStlBytes) cubeSettings zeroClock =
      exportFrame (makeFrame cubeSettings cubeCam cubeMesh) := by rfl
  refine ⟨?_, ?_, ?_⟩
  · rw [hkey]
    simp [exportFrame]
  · rw [hkey]
    rfl
  refine ⟨pixBytes 256 (annPix cubeSettings cubeCam cubeMesh) 0 65536,
    ?_, ?_, ?_, ?_⟩
  · rw [hkey]
    rfl
  · refine ⟨0, by omega, ?_, by decide⟩
    rw [pixBytes_getElem 256 (annPix cubeSettings cubeCam cubeMesh) 65536 0 0 3
      (by omega) (by omega)]
    show (pixChunk (annPix cubeSettings cubeCam cubeMesh 0 0))[3]? = some 0
    have ha : (annPix cubeSettings cubeCam cubeMesh 0 0).a = 0 := by decide
    simp [pixChunk, ha]
  · refine ⟨32896, by omega, ?_⟩
    rw [pixBytes_getElem 256 (annPix cubeSettings cubeCam cubeMesh) 65536 0
      32896 3 (by omega) (by omega)]
    show (pixChunk (annPix cubeSettings cubeCam cubeMesh 128 128))[3]? = some 255
    have ha : (annPix cubeSettings cubeCam cubeMesh 128 128).a = 255 := by decide
    simp [pixChunk, ha]
  · intro x y hx hy hcov
    rw [pixBytes_getElem 256 (annPix cubeSettings cubeCam cubeMesh) 65536 0
      (y * 256 + x) 3 (by omega) (by omega)]
    have hmod : (0 + (y * 256 + x)) % 256 = x := by omega
    have hdiv : (0 + (y * 256 + x)) / 256 = y := by omega
    rw [hmod, hdiv]
    have hann : annPix cubeSettings cubeCam cubeMesh x y = Pix.mk 0 0 0 0 := by
      have hsz : (cubeSettings.size_hint && overlayB cubeSettings x y) = false := rfl
      unfold annPix
      rw [hsz]
      show rasterPix cubeCam cubeMesh x y = Pix.mk 0 0 0 0
      exact rasterPix_background cubeCam cubeMesh x y hcov
    rw [hann]
    rfl

/-- Witness for C8 instantiating the universal background-transparency
conjunct at pixel (0, 0), discharging its hypotheses there. -/
theorem c8_witness :
    ∃ L, (render (some cubeStlBytes) cubeSettings zeroClock).data = some L ∧
      L[3]? = some 0 := by
  obtain ⟨-, -, L, hL, -, -, huniv⟩ := c8_cube_render_props
  exact ⟨L, hL, by simpa using huniv 0 0 (by omega) (by omega) (by decide)⟩

end S2T
